import Mathlib

/-!
Verification of the plado event-polling engine against its specification.

The definitions below are a shallow embedding of the Python sources of the
repository: `src/events/event_queue.py` (the dispatch queue),
`src/events/event_thread.py` (the worker thread), `src/events/event.py`
(jobs and the generic event), `src/events/events_pr.py` (the pull-request
event kinds), `src/config.py` and `src/events/event_config.py` (the
configuration parser), and `src/event_monitoring.py` (the orchestrator).
Pure comparison logic becomes Lean functions; the worker loop body becomes a
function producing an explicit action trace; fallible Python code (raised
exceptions, undefined names, missing attributes) returns `Except`.
-/

namespace Plado

/-! ## Dispatch queue (`src/events/event_queue.py`)

`EventQueue` holds a Python list guarded by one lock.  `push` appends to the
end of the list (`self.queue.append(event)`); `pop` removes index 0
(`self.queue.pop(0)`).  In the single-threaded projection used here the
queue is the plain list, and a blocking `pop` on an empty queue has no
pusher to wake it, which we record with a distinguished `blocked` outcome. -/

/-- Outcome of `EventQueue.pop(wait)`: an element from the head of the list,
the Python `None` marker for an empty queue with `wait=False`, or a blocked
caller for an empty queue with `wait=True` (the condition wait has no
notifier in the single-threaded projection). -/
inductive PopResult (ε : Type) where
  | item (e : ε)
  | empty
  | blocked
deriving DecidableEq, Repr

/-- Embeds `EventQueue.push` (event_queue.py lines 44-52): append to the END
of the underlying list. -/
def queue_push {ε : Type} (q : List ε) (e : ε) : List ε :=
  q ++ [e]

/-- Embeds `EventQueue.pop` (event_queue.py lines 54-75): while `wait` and
the queue is empty, block on the condition variable; if the queue is empty
(only reachable with `wait=False`), return `None`; otherwise pop index 0. -/
def queue_pop {ε : Type} (wait : Bool) (q : List ε) : PopResult ε × List ε :=
  match q with
  | [] => (if wait then PopResult.blocked else PopResult.empty, [])
  | x :: xs => (PopResult.item x, xs)

/-- A sequence of pushes applied in order, as the orchestrator performs
them (`for e in events: equeue.push(e)` in event_monitoring.py). -/
def queue_push_all {ε : Type} (q : List ε) (ps : List ε) : List ε :=
  ps.foldl queue_push q

/-- `n` successive non-blocking pops; returns the popped results in order
together with the final queue. -/
def queue_pop_n {ε : Type} : Nat → List ε → List (PopResult ε) × List ε
  | 0, q => ([], q)
  | Nat.succ n, q =>
    let (r, q2) := queue_pop false q
    let (rs, q3) := queue_pop_n n q2
    (r :: rs, q3)

/-! ## Worker thread (`src/events/event_thread.py`) -/

/-- Embeds `EventThread.should_stop` (event_thread.py lines 79-87): the
method acquires `kill_lock`, copies `kill_flag` into the local variable
`should_stop`, releases the lock, and then falls off the end of the function
body without a `return` statement — so, as in Python, it returns `None`
(here `none`) for every value of the kill flag. -/
def should_stop (kill_flag : Bool) : Option Bool :=
  let _s := kill_flag
  none

/-- Python truthiness of an optional boolean: `None` is falsy. -/
def py_truthy : Option Bool → Bool
  | none => false
  | some b => b

/-- The `wait` argument passed to `EventQueue.pop` by the worker loop
(event_thread.py line 101): `wait=(not self.should_stop())`. -/
def pop_wait_arg (kill_flag : Bool) : Bool :=
  ! py_truthy (should_stop kill_flag)

/-- One observable step of the worker loop body `EventThread.run`
(event_thread.py lines 88-134).  `ε` is the type of events, `π` the type of
payload entries returned by `Event.poll`. -/
inductive TAction (ε π : Type) where
  | set_waiting (b : Bool)
  | pop_queue (wait : Bool)
  | blocked_forever
  | exit_loop
  | poll (e : ε)
  | continue_loop
  | fire (job : Nat) (payload : π)
  | reap (job : Nat)
deriving DecidableEq, Repr

/-- Embeds one iteration of the loop in `EventThread.run` (event_thread.py
lines 95-134) as the trace of actions it performs, together with the queue
it leaves behind.  `pollFn e` is the value returned by `e.poll()` (Python
`None` or a list of payload entries) and `numJobs e` is `len(e.jobs)`.
The iteration: set the waiting flag true, pop with
`wait=(not self.should_stop())`, set the waiting flag false, `break` if the
pop returned `None`, otherwise poll the event, `continue` if the poll
returned `None`, otherwise fire every job for every payload entry and then
reap every job once. -/
def run_iteration {ε π : Type} (kill_flag : Bool) (q : List ε)
    (pollFn : ε → Option (List π)) (numJobs : ε → Nat) :
    List (TAction ε π) × List ε :=
  let wait := pop_wait_arg kill_flag
  let popped := queue_pop wait q
  match popped.1 with
  | PopResult.blocked =>
    ([TAction.set_waiting true, TAction.pop_queue wait, TAction.blocked_forever],
     popped.2)
  | PopResult.empty =>
    ([TAction.set_waiting true, TAction.pop_queue wait, TAction.set_waiting false,
      TAction.exit_loop], popped.2)
  | PopResult.item e =>
    let pre := [TAction.set_waiting true, TAction.pop_queue wait,
                TAction.set_waiting false, TAction.poll e]
    match pollFn e with
    | none => (pre ++ [TAction.continue_loop], popped.2)
    | some entries =>
      (pre
        ++ entries.flatMap (fun p => (List.range (numJobs e)).map (fun j => TAction.fire j p))
        ++ (List.range (numJobs e)).map TAction.reap, popped.2)

/-- `true` while no job in the scanned trace is ever fired a second time
without an intervening reap of that same job.  `cnt j` counts the fires of
job `j` not yet followed by a reap of `j`. -/
def no_double_fire_go {ε π : Type} : List (TAction ε π) → (Nat → Nat) → Bool
  | [], _ => true
  | TAction.fire j _ :: rest, cnt =>
    if 1 ≤ cnt j then false
    else no_double_fire_go rest (fun k => if k = j then cnt j + 1 else cnt k)
  | TAction.reap j :: rest, cnt =>
    no_double_fire_go rest (fun k => if k = j then 0 else cnt k)
  | _ :: rest, cnt => no_double_fire_go rest cnt

/-- The at-most-one-concurrent-handle property of a worker trace: no job is
fired twice without an intervening reap of that job. -/
def no_double_fire {ε π : Type} (acts : List (TAction ε π)) : Bool :=
  no_double_fire_go acts (fun _ => 0)

/-! ## Job firing (`src/events/event.py`, class `EventJob`) -/

/-- One observable step of `EventJob.fire` (event.py lines 48-92).
`communicate t` is Python's `Popen.communicate(input=..., timeout=t)`, which
streams the payload to the child's stdin, closes it, and then **waits for
the child process to terminate** (raising `TimeoutExpired` after `t`
seconds); `ret_handle` is `return self.process`, `ret_reap` is
`return self.reap()`. -/
inductive FireStep where
  | popen
  | communicate (timeout : Nat)
  | kill_process
  | reap_invoked
  | ret_reap
  | ret_handle
deriving DecidableEq, Repr

/-- Embeds `EventJob.fire` (event.py lines 48-92) as the sequence of steps it
performs: spawn the subprocess with `Popen`, call `communicate` with the
configured timeout (on `TimeoutExpired`: kill the process and call
`self.reap()`), then — only if `wait` is true — call `self.reap()` and return
its result, otherwise return the process handle.  `times_out` records
whether the `communicate` call raised `TimeoutExpired`. -/
def fire_steps (timeout : Nat) (wait : Bool) (times_out : Bool) : List FireStep :=
  [FireStep.popen, FireStep.communicate timeout]
    ++ (if times_out then [FireStep.kill_process, FireStep.reap_invoked] else [])
    ++ (if wait then [FireStep.reap_invoked, FireStep.ret_reap] else [FireStep.ret_handle])

/-- A step of `EventJob.fire` at which the caller blocks until the spawned
child process has exited (or the timeout has elapsed): `Popen.communicate`
waits for process termination, and `reap` calls `Popen.wait`. -/
def fire_step_waits_for_exit : FireStep → Bool
  | FireStep.communicate _ => true
  | FireStep.reap_invoked => true
  | _ => false

/-- `true` when some step of the trace blocks until the child exits before
any value is returned to the caller. -/
def fire_blocks_until_exit (steps : List FireStep) : Bool :=
  steps.any fire_step_waits_for_exit

/-! ## JSON payload serialization (`src/events/event.py` lines 77-86)

`EventJob.fire` builds the child's stdin bytes with
`payload = json.dumps(event_data)` followed by
`self.process.communicate(input=json.dumps(payload).encode(), ...)`.
`Json` and `dumps` model Python's `json.dumps` with its default separators
(`", "` and `": "`) and escaping for the characters exercised here. -/

/-- A JSON value as produced for event payload dictionaries. -/
inductive Json where
  | null
  | bool (b : Bool)
  | num (n : Int)
  | str (s : String)
  | arr (xs : List Json)
  | obj (fields : List (String × Json))
deriving Repr

/-- Escaping of one character inside a JSON string literal, as Python's
`json.dumps` performs it for the characters that occur in the payloads
considered here. -/
def json_escape_char (c : Char) : String :=
  if c = Char.ofNat 34 then "\\\""
  else if c = Char.ofNat 92 then "\\\\"
  else if c = Char.ofNat 10 then "\\n"
  else if c = Char.ofNat 13 then "\\r"
  else if c = Char.ofNat 9 then "\\t"
  else String.singleton c

/-- Escapes a whole string for inclusion in a JSON string literal. -/
def json_escape (s : String) : String :=
  String.join (s.data.map json_escape_char)

mutual

/-- Models Python's `json.dumps` with default arguments on `Json` values. -/
def dumps : Json → String
  | Json.null => "null"
  | Json.bool true => "true"
  | Json.bool false => "false"
  | Json.num n => toString n
  | Json.str s => "\"" ++ json_escape s ++ "\""
  | Json.arr xs => "[" ++ dumps_list xs ++ "]"
  | Json.obj fields => "\x7b" ++ dumps_fields fields ++ "\x7d"

/-- Comma-separated serialization of array elements. -/
def dumps_list : List Json → String
  | [] => ""
  | [x] => dumps x
  | x :: y :: rest => dumps x ++ ", " ++ dumps_list (y :: rest)

/-- Comma-separated serialization of object fields. -/
def dumps_fields : List (String × Json) → String
  | [] => ""
  | [(k, v)] => "\"" ++ json_escape k ++ "\": " ++ dumps v
  | (k, v) :: f :: rest =>
    "\"" ++ json_escape k ++ "\": " ++ dumps v ++ ", " ++ dumps_fields (f :: rest)

end

/-- The exact bytes `EventJob.fire` delivers on the spawned process's
standard input (event.py lines 77-82): `payload = json.dumps(event_data)`
(a Python `str`), then `input=json.dumps(payload).encode()` — `json.dumps`
applied to that string serializes it a second time, as a JSON string
literal. -/
def fire_stdin_bytes (event_data : Json) : String :=
  dumps (Json.str (dumps event_data))

/-- The single serialization of the payload record that the specification
describes as the bytes delivered on the child's standard input. -/
def spec_stdin_bytes (event_data : Json) : String :=
  dumps event_data

/-! ## Pull-request event kinds (`src/events/events_pr.py`)

Pull requests and reviewers are the plain data records returned by the
remote-service client; only the fields read by the comparison kinds are
modelled.  A Python dict keyed by insertion order is an association list. -/

/-- A pull-request reviewer record.  `is_required` models the optional
`is_required` attribute of the remote record: `none` when the attribute is
absent (`hasattr` returns `False`). -/
structure Reviewer where
  unique_name : String
  display_name : String
  is_required : Option Bool
  vote : Int
deriving DecidableEq, Repr

/-- The value of `hasattr(rev, "is_required") and rev.is_required`
(events_pr.py line 466). -/
def Reviewer.is_required_val (rev : Reviewer) : Bool :=
  match rev.is_required with
  | none => false
  | some b => b

/-- Models the azure-devops record's `as_dict()` conversion; in this
embedding the dictionary form of a reviewer record is the record itself. -/
def Reviewer.as_dict (rev : Reviewer) : Reviewer := rev

/-- A pull-request record, restricted to the fields the comparison kinds
read. -/
structure PR where
  pull_request_id : Nat
  is_draft : Bool
  status : String
  reviewers : List Reviewer
deriving DecidableEq, Repr

/-- Models the azure-devops record's `as_dict()` conversion; in this
embedding the dictionary form of a pull-request record is the record
itself. -/
def PR.as_dict (pr : PR) : PR := pr

/-- Insertion into a Python dict modelled as an association list: an
existing key is overwritten in place, a new key is appended. -/
def dict_insert {β : Type} (d : List (String × β)) (k : String) (v : β) :
    List (String × β) :=
  if d.any (fun p => p.1 == k) then d.map (fun p => if p.1 == k then (k, v) else p)
  else d ++ [(k, v)]

/-- The dict built by `for rev in list: d[rev.unique_name] = rev`
(events_pr.py lines 510-515). -/
def revs_dict (revs : List Reviewer) : List (String × Reviewer) :=
  revs.foldl (fun d rev => dict_insert d rev.unique_name rev) []

/-- Embeds `Event_PR.filtered_prs` (events_pr.py lines 75-91): with no
configured `pullreq` return all PRs; otherwise return a one-element list
with the first PR whose stringified id matches the configured id after
`strip().lower()` normalization on both sides, or the empty list. -/
def filtered_prs (pullreq_cfg : Option String) (prs : List PR) : List PR :=
  match pullreq_cfg with
  | none => prs
  | some pr_id =>
    match prs.find? (fun pr =>
        (toString pr.pull_request_id).trim.toLower == pr_id.trim.toLower) with
    | some pr => [pr]
    | none => []

/-- Embeds `Event_PR_Draft_On.poll_action` (events_pr.py lines 192-223),
with `desired_state` abstracted so that `Event_PR_Draft_Off` (which only
flips `desired_state` to `False`) is the same function.  `pr_backups` is the
snapshot read by `Event_PR.poll_action` (`None` when the Snapshot Store has
no record for the PR-collection key); `prs` is the live PR list fetched from
the remote service.  With no baseline the function returns `None`.
Otherwise, for each filtered PR: a PR absent from the snapshot is reported
only when it is in the desired draft state and `include_new_pullreqs` is
set; a PR present in the snapshot is reported when its snapshot copy is not
in the desired state and its live copy is.  An empty result list becomes
`None`. -/
def draft_on_poll_action (desired_state include_new : Bool)
    (pullreq_cfg : Option String) (pr_backups : Option (List (Nat × PR)))
    (prs : List PR) : Option (List PR) :=
  match pr_backups with
  | none => none
  | some bk =>
    let results := (filtered_prs pullreq_cfg prs).foldl (fun acc pr =>
      match bk.lookup pr.pull_request_id with
      | none =>
        if pr.is_draft == desired_state && include_new then acc ++ [pr.as_dict]
        else acc
      | some pr_old =>
        if pr_old.is_draft != desired_state && pr.is_draft == desired_state then
          acc ++ [pr.as_dict]
        else acc) []
    if results.length = 0 then none else some results

/-- Embeds `Event_PR_Status_Change.poll_action` (events_pr.py lines
354-395) as it executes in Python.  With no baseline it returns `ok none`.
For a filtered PR present in the snapshot whose live status differs from
its snapshot status, both branches of the `desired_status` check execute
`result.append(pr.as_dict())` — but no variable named `result` is in scope
in this method (the local list is `results`), so Python raises a
`NameError` there; otherwise the loop leaves `results` empty and the method
returns `ok none`. -/
def status_change_poll_action (desired_status pullreq_cfg : Option String)
    (pr_backups : Option (List (Nat × PR))) (prs : List PR) :
    Except String (Option (List PR)) :=
  match pr_backups with
  | none => Except.ok none
  | some bk => do
    let results ← (filtered_prs pullreq_cfg prs).foldlM (fun acc pr =>
      match bk.lookup pr.pull_request_id with
      | none => pure acc
      | some pr_old =>
        if pr.status != pr_old.status then
          -- `if ds is not None and status_new.strip().lower() == ds.strip().lower()`
          -- only selects which debug message is printed; both branches then
          -- execute the appending statement on the undefined name.
          let _ds_matches := match desired_status with
            | some ds => pr.status.trim.toLower == ds.trim.toLower
            | none => false
          Except.error "NameError: name result is not defined"
        else pure acc) ([] : List PR)
    pure (if results.length = 0 then none else some results)

/-- Embeds `Event_PR_Reviewer_Added.match_reviewer_name` (events_pr.py
lines 433-452): with no configured `user` every reviewer matches; otherwise
compare the configured name against the normalized display name, unique
name, and the username part of an email-address unique name. -/
def match_reviewer_name (user_cfg : Option String) (rev : Reviewer) : Bool :=
  match user_cfg with
  | none => true
  | some user0 =>
    let unique_name := rev.unique_name.toLower.trim
    let user := user0.trim.toLower
    let user_email_name :=
      if unique_name.contains (Char.ofNat 64) then
        (unique_name.splitOn "@").headD unique_name
      else unique_name
    (rev.display_name.toLower.trim == user) || (unique_name == user) ||
      (user_email_name == user)

/-- Embeds `Event_PR_Reviewer_Added.check_reviewers` (events_pr.py lines
454-488).  The method declares its own local `result = []` (line 461) and
appends each new reviewer that passes the `only_optional`/`only_required`
and user-name filters; it returns `None` when the list stays empty. -/
def check_reviewers (only_optional only_required : Bool)
    (user_cfg : Option String) (revs_new revs_old : List (String × Reviewer)) :
    Option (List Reviewer) :=
  let result := revs_new.foldl (fun acc p =>
    if (revs_old.lookup p.1).isSome then acc
    else
      match revs_new.lookup p.1 with
      | none => acc
      | some rev =>
        let is_req := rev.is_required_val
        if only_optional && is_req then acc
        else if only_required && !is_req then acc
        else if !(match_reviewer_name user_cfg rev) then acc
        else acc ++ [rev]) []
  if result.length = 0 then none else some result

/-- One occurrence payload of `Event_PR_Reviewer_Added.poll_action`: the
PR's dictionary with the triggering reviewers nested under `culprits`
(events_pr.py lines 519-524). -/
structure PRPayload where
  pr_data : PR
  culprits : List Reviewer
deriving DecidableEq, Repr

/-- Embeds `Event_PR_Reviewer_Added.poll_action` (events_pr.py lines
490-529): with no baseline return `None`; otherwise, for each filtered PR
present in the snapshot, build the new and old reviewer dicts keyed by
unique name, run `check_reviewers`, and on a hit append the PR's dictionary
with the triggering reviewers as `culprits`.  An empty result list becomes
`None`. -/
def reviewer_added_poll_action (only_optional only_required : Bool)
    (user_cfg pullreq_cfg : Option String)
    (pr_backups : Option (List (Nat × PR))) (prs : List PR) :
    Option (List PRPayload) :=
  match pr_backups with
  | none => none
  | some bk =>
    let results := (filtered_prs pullreq_cfg prs).foldl (fun acc pr =>
      match bk.lookup pr.pull_request_id with
      | none => acc
      | some pr_old =>
        let revs_new := revs_dict pr.reviewers
        let revs_old := revs_dict pr_old.reviewers
        match check_reviewers only_optional only_required user_cfg revs_new revs_old with
        | none => acc
        | some revs => acc ++ [⟨pr.as_dict, revs.map Reviewer.as_dict⟩]) []
    if results.length = 0 then none else some results

/-! ## Class attribute lookup and the orchestrator cleanup phase
(`src/event_monitoring.py`, `src/events/event.py`, `src/events/events_pr.py`)

`em_main` ends each cycle with `for e in events: e.cleanup()`.  Whether that
call succeeds is a Python attribute lookup along the class hierarchy, so the
classes are modelled by the lists of method names each one defines. -/

/-- Methods defined by class `Event` (event.py lines 94-193). -/
def event_class_methods : List String :=
  ["__init__", "dbg_print", "get_last_poll_time", "set_last_poll_time",
   "poll", "poll_action"]

/-- Methods defined by class `Event_PR` (events_pr.py lines 56-117). -/
def event_pr_class_methods : List String :=
  ["__init__", "filtered_prs", "poll_action", "cleanup_action"]

/-- Methods defined by class `Event_PR_Draft_On` (events_pr.py lines
180-223). -/
def event_pr_draft_on_class_methods : List String :=
  ["__init__", "poll_action"]

/-- The method-resolution order of `Event_PR_Draft_On`:
`Event_PR_Draft_On` → `Event_PR` → `Event` (then `abc.ABC` and `object`,
which define none of the names looked up here). -/
def event_pr_draft_on_mro : List (List String) :=
  [event_pr_draft_on_class_methods, event_pr_class_methods, event_class_methods]

/-- Python attribute lookup of a method name along a method-resolution
order. -/
def py_has_method (mro : List (List String)) (m : String) : Bool :=
  mro.any (fun ms => ms.contains m)

/-- Embeds the cleanup phase of `em_main` (event_monitoring.py lines
154-155): `for e in events: e.cleanup()`.  Each call is an attribute lookup
of `"cleanup"` on the event's class hierarchy; a missing attribute raises
`AttributeError` and aborts the loop. -/
def em_cleanup_loop (evs : List (List (List String))) : Except String Unit :=
  evs.foldlM (fun _ mro =>
    if py_has_method mro "cleanup" then Except.ok ()
    else Except.error "AttributeError: cleanup") ()

/-! ## Configuration parsing (`src/config.py`, `src/events/event_config.py`) -/

/-- The Python runtime types that appear in the config fields. -/
inductive PyType where
  | noneT
  | strT
  | intT
  | boolT
  | listT
deriving DecidableEq, Repr

/-- A Python value of one of those types, as found in parsed JSON config
data. -/
inductive PyVal where
  | vnone
  | vstr (s : String)
  | vint (n : Int)
  | vbool (b : Bool)
  | vlist (xs : List PyVal)
deriving Repr

/-- Python's `type(value)` on a config value. -/
def py_type_of : PyVal → PyType
  | PyVal.vnone => PyType.noneT
  | PyVal.vstr _ => PyType.strT
  | PyVal.vint _ => PyType.intT
  | PyVal.vbool _ => PyType.boolT
  | PyVal.vlist _ => PyType.listT

/-- Embeds class `ConfigField` (config.py lines 24-67): a name, the list of
acceptable types, whether the field is required, the default value, and the
current value (initialized to the default by the constructor). -/
structure ConfigField where
  name : String
  types : List PyType
  required : Bool
  default : PyVal
  value : PyVal

/-- Embeds `ConfigField.set` (config.py lines 49-61): if the type of the
new value is not among the acceptable types an exception is raised,
otherwise the value is updated. -/
def ConfigField.set (f : ConfigField) (v : PyVal) : Except String ConfigField :=
  if f.types.contains (py_type_of v) then
    Except.ok { f with value := v }
  else
    Except.error ("ConfigField Error: Field \"" ++ f.name ++
      "\" must be one of the following types")

/-- Embeds `Config.parse_json` (config.py lines 140-158) over the ordered
field table: for each field in declaration order, if the field name is
present in the JSON data set it (type-checked); if absent and required,
raise; if absent and optional, call `set` with the field's declared default
— which is also type-checked. -/
def parse_json (fields : List ConfigField) (jdata : List (String × PyVal)) :
    Except String (List ConfigField) :=
  fields.mapM (fun f =>
    match jdata.lookup f.name with
    | some v => f.set v
    | none =>
      if f.required then
        Except.error ("Config Error: Required field \"" ++ f.name ++ "\" not found.")
      else f.set f.default)

/-- The field table of `EventJobConfig` (event_config.py lines 17-55), in
declaration order: `args` (required, list), `name` (optional str, default
`None`), `run_dir` (optional str, default `None`), and `timeout` — declared
with acceptable types `[str]` but default `120`, an int. -/
def event_job_config_fields : List ConfigField :=
  [⟨"args", [PyType.listT], true, PyVal.vnone, PyVal.vnone⟩,
   ⟨"name", [PyType.strT], false, PyVal.vnone, PyVal.vnone⟩,
   ⟨"run_dir", [PyType.strT], false, PyVal.vnone, PyVal.vnone⟩,
   ⟨"timeout", [PyType.strT], false, PyVal.vint 120, PyVal.vint 120⟩]

/-- The number of payload entries in a `poll` result (`None` yields
none). -/
def payload_count {π : Type} : Option (List π) → Nat
  | none => 0
  | some l => l.length

/-- Concrete live pull request for the draft-flip scenario: tracked PR 7,
live draft flag on. -/
def c3_pr_live : PR := ⟨7, true, "active", []⟩

/-- Concrete snapshot copy of PR 7 from the previous cycle: draft flag
off. -/
def c3_pr_old : PR := ⟨7, false, "active", []⟩

/-- Concrete reviewer for the reviewer-added scenario. -/
def c7_rev : Reviewer := ⟨"alice", "Alice", some true, 0⟩

/-- Concrete live PR 3 that gained reviewer `alice`. -/
def c7_pr_new : PR := ⟨3, false, "active", [c7_rev]⟩

/-- Concrete snapshot copy of PR 3 with no reviewers. -/
def c7_pr_old : PR := ⟨3, false, "active", []⟩

/-- Concrete live PR 4 whose status changed to `completed`. -/
def c7_pr_sc_new : PR := ⟨4, false, "completed", []⟩

/-- Concrete snapshot copy of PR 4 with status `active`. -/
def c7_pr_sc_old : PR := ⟨4, false, "active", []⟩

end Plado

namespace Plado

/-- FIFO helper: pushing a list of elements appends it to the queue. -/
theorem queue_push_all_eq_append {ε : Type} (q : List ε) (ps : List ε) :
    queue_push_all q ps = q ++ ps := by
  induction ps generalizing q with
  | nil => simp [queue_push_all]
  | cons p ps ih =>
    simp only [queue_push_all, List.foldl_cons] at *
    rw [ih (queue_push q p)]
    simp [queue_push]

/-- FIFO helper: popping as many times as the queue has elements returns
them all in order. -/
theorem queue_pop_n_all {ε : Type} (ps : List ε) :
    queue_pop_n ps.length ps = (ps.map PopResult.item, []) := by
  induction ps with
  | nil => simp [queue_pop_n]
  | cons p ps ih =>
    simp [queue_pop_n, queue_pop, ih]

/-- Scanning only reap actions never trips the no-double-fire check. -/
theorem no_double_fire_go_reaps {ε π : Type} (js : List Nat) (cnt : Nat → Nat) :
    no_double_fire_go (ε := ε) (π := π) (js.map TAction.reap) cnt = true := by
  induction js generalizing cnt with
  | nil => rfl
  | cons j js ih => simp [no_double_fire_go, ih]

/-- Scanning one fire per job over pairwise-distinct job indices, each with
no outstanding fire, passes the no-double-fire check and continues into any
tail that always passes it. -/
theorem no_double_fire_go_fires {ε π : Type} (p : π) (js : List Nat)
    (rest : List (TAction ε π)) (cnt : Nat → Nat) (hnd : js.Nodup)
    (h0 : ∀ j ∈ js, cnt j = 0)
    (hrest : ∀ c : Nat → Nat, no_double_fire_go rest c = true) :
    no_double_fire_go (js.map (fun j => TAction.fire j p) ++ rest) cnt = true := by
  induction js generalizing cnt with
  | nil => simpa using hrest cnt
  | cons j js ih =>
    have hj : cnt j = 0 := h0 j (by simp)
    have hnd2 := List.nodup_cons.mp hnd
    simp only [List.map_cons, List.cons_append, no_double_fire_go, hj]
    simp only [show ¬ 1 ≤ 0 by decide, if_false]
    refine ih _ hnd2.2 ?_
    intro k hk
    have hkj : k ≠ j := fun h => hnd2.1 (h ▸ hk)
    simp [hkj, h0 k (List.mem_cons_of_mem _ hk)]

/-- C1: for every Trackable successfully dequeued by a worker — after the
iteration sets the waiting flag true, block-pops the dispatch queue, and
sets the waiting flag false — the same loop iteration invokes `poll()` on
that dequeued Trackable. -/
theorem C1_worker_polls_dequeued {ε π : Type} (kill_flag : Bool) (e : ε)
    (q : List ε) (pollFn : ε → Option (List π)) (numJobs : ε → Nat) :
    ∃ rest, (run_iteration kill_flag (e :: q) pollFn numJobs).1 =
      TAction.set_waiting true :: TAction.pop_queue true ::
      TAction.set_waiting false :: TAction.poll e :: rest := by
  cases h : pollFn e with
  | none =>
    exact ⟨[TAction.continue_loop], by
      simp [run_iteration, pop_wait_arg, py_truthy, should_stop, queue_pop, h]⟩
  | some entries =>
    exact ⟨entries.flatMap (fun p => (List.range (numJobs e)).map (fun j => TAction.fire j p))
        ++ (List.range (numJobs e)).map TAction.reap, by
      simp [run_iteration, pop_wait_arg, py_truthy, should_stop, queue_pop, h]⟩

/-- C2: `em_main` ends the cycle with `e.cleanup()`, but no Event class in
the hierarchy defines a method named `cleanup` (the subclasses define
`cleanup_action`), so the per-cycle cleanup step raises `AttributeError`
instead of completing — the orchestrator never reaches any Trackable's
`cleanup_action()`. -/
theorem C2_cleanup_attribute_error :
    em_cleanup_loop [event_pr_draft_on_mro] =
      Except.error "AttributeError: cleanup" ∧
    py_has_method event_pr_draft_on_mro "cleanup" = false ∧
    py_has_method event_pr_draft_on_mro "cleanup_action" = true :=
  ⟨rfl, rfl, rfl⟩

/-- C3: for the `pr_draft_on` kind with `include_new_pullreqs=false`, a
missing snapshot baseline yields no payloads regardless of the live PR
list; and on a later poll where the single tracked PR is in the snapshot
with `is_draft=false` while its live copy has `is_draft=true`, `poll_action`
returns exactly one payload containing that pull request's record. -/
theorem C3_draft_on_no_baseline_then_flip (prs : List PR) (pr pr_old : PR)
    (bk : List (Nat × PR))
    (h1 : bk.lookup pr.pull_request_id = some pr_old)
    (h2 : pr_old.is_draft = false) (h3 : pr.is_draft = true) :
    draft_on_poll_action true false none none prs = none ∧
    draft_on_poll_action true false none (some bk) [pr] = some [pr.as_dict] := by
  refine ⟨rfl, ?_⟩
  simp [draft_on_poll_action, filtered_prs, h1, h2, h3]

/-- Witness for C3 at the concrete two-cycle scenario: PR 7 flips its draft
flag from off (snapshot) to on (live). -/
theorem C3_witness :
    ([(7, c3_pr_old)] : List (Nat × PR)).lookup c3_pr_live.pull_request_id =
        some c3_pr_old ∧
    c3_pr_old.is_draft = false ∧ c3_pr_live.is_draft = true ∧
    (draft_on_poll_action true false none none [c3_pr_live] = none ∧
     draft_on_poll_action true false none (some [(7, c3_pr_old)]) [c3_pr_live] =
       some [c3_pr_live.as_dict]) :=
  ⟨rfl, rfl, rfl,
    C3_draft_on_no_baseline_then_flip [c3_pr_live] c3_pr_live c3_pr_old
      [(7, c3_pr_old)] rfl rfl rfl⟩

/-- C4: `EventJob.fire` with `wait=False` does not return immediately after
spawning — its trace contains the `communicate` call, which by Python's
subprocess semantics waits for the spawned child to terminate (up to the
timeout) before `return self.process` executes, so the caller blocks until
process exit even with `wait=False`. -/
theorem C4_fire_wait_false_blocks :
    fire_steps 120 false false =
      [FireStep.popen, FireStep.communicate 120, FireStep.ret_handle] ∧
    fire_blocks_until_exit (fire_steps 120 false false) = true :=
  ⟨rfl, rfl⟩

/-- C5: the bytes delivered on the child's stdin are a double serialization
— `json.dumps` applied to the already-serialized payload string — so for
the empty payload record the child reads `"{}"` (a JSON string literal)
rather than `{}` (the serialized record itself). -/
theorem C5_stdin_double_serialized :
    fire_stdin_bytes (Json.obj []) = "\x22\x7b\x7d\x22" ∧
    spec_stdin_bytes (Json.obj []) = "\x7b\x7d" ∧
    fire_stdin_bytes (Json.obj []) ≠ spec_stdin_bytes (Json.obj []) := by
  refine ⟨rfl, rfl, by decide⟩

/-- C6: after `kill()` sets the kill flag, `should_stop()` still returns
Python `None` (its body never returns the flag), so the next pop is invoked
with `wait=True` — blocking mode — and on an empty queue the worker blocks
forever instead of observing the empty-result marker and exiting. -/
theorem C6_kill_pop_blocking :
    should_stop true = none ∧ pop_wait_arg true = true ∧
    (run_iteration true ([] : List Nat) (fun _ => (none : Option (List Nat)))
        (fun _ => 0)).1 =
      [TAction.set_waiting true, TAction.pop_queue true, TAction.blocked_forever] :=
  ⟨rfl, rfl, rfl⟩

/-- C7 counterexample: the reviewer-added kind does not fail with an
undefined-variable error — on a baseline where tracked PR 3 gained reviewer
`alice`, its `poll_action` completes and returns the payload with the new
reviewer as a culprit (its `check_reviewers` appends to a locally defined
`result` list). -/
theorem C7_counterexample :
    reviewer_added_poll_action false false none none (some [(3, c7_pr_old)])
      [c7_pr_new] = some [⟨c7_pr_new, [c7_rev]⟩] := rfl

/-- C7 amended: only the status-change kind appends to an undefined
variable `result`: when a filtered PR present in the snapshot changes
status, `Event_PR_Status_Change.poll_action` raises `NameError`; the
reviewer-added kind's `check_reviewers` appends each new matching reviewer
to its locally defined `result` list and completes. -/
theorem C7_status_change_name_error (ds : Option String) (pr pr_old : PR)
    (bk : List (Nat × PR))
    (h1 : bk.lookup pr.pull_request_id = some pr_old)
    (h2 : pr.status ≠ pr_old.status) :
    status_change_poll_action ds none (some bk) [pr] =
      Except.error "NameError: name result is not defined" ∧
    ∀ (nm : String) (rev : Reviewer),
      check_reviewers false false none [(nm, rev)] [] = some [rev] := by
  constructor
  · simp [status_change_poll_action, filtered_prs, h1, h2]
  · intro nm rev
    simp [check_reviewers, match_reviewer_name, List.lookup]

/-- Witness for C7 at the concrete inputs: PR 4 changed status from
`active` to `completed`, and reviewer `alice` was added. -/
theorem C7_witness :
    ([(4, c7_pr_sc_old)] : List (Nat × PR)).lookup c7_pr_sc_new.pull_request_id =
        some c7_pr_sc_old ∧
    c7_pr_sc_new.status ≠ c7_pr_sc_old.status ∧
    (status_change_poll_action none none (some [(4, c7_pr_sc_old)]) [c7_pr_sc_new] =
        Except.error "NameError: name result is not defined" ∧
      ∀ (nm : String) (rev : Reviewer),
        check_reviewers false false none [(nm, rev)] [] = some [rev]) :=
  ⟨rfl, by decide,
    C7_status_change_name_error none c7_pr_sc_new c7_pr_sc_old
      [(4, c7_pr_sc_old)] rfl (by decide)⟩

/-- C8 counterexample: a dequeued Trackable with one job whose poll yields
two payload entries produces the trace fire(job 0), fire(job 0), reap(job
0) — the job is fired twice with no intervening reap. -/
theorem C8_counterexample :
    no_double_fire ((run_iteration false ([0] : List Nat)
      (fun _ => some [10, 20]) (fun _ => 1)).1) = false := rfl

/-- C8 amended: within one worker iteration all fires precede all reaps, so
the at-most-one-concurrent-handle property holds exactly when the dequeued
Trackable's poll yields at most one payload entry: under that bound no job
is ever fired twice without an intervening reap. -/
theorem C8_no_double_fire_of_single_payload {ε π : Type} (kill_flag : Bool)
    (e : ε) (q : List ε) (pollFn : ε → Option (List π)) (numJobs : ε → Nat)
    (h : payload_count (pollFn e) ≤ 1) :
    no_double_fire (run_iteration kill_flag (e :: q) pollFn numJobs).1 = true := by
  cases hp : pollFn e with
  | none =>
    simp [run_iteration, queue_pop, hp, no_double_fire, no_double_fire_go]
  | some entries =>
    rw [hp] at h
    cases entries with
    | nil =>
      simp only [run_iteration, queue_pop, hp, List.flatMap_nil, no_double_fire]
      simp only [List.nil_append, List.append_assoc, List.cons_append,
        no_double_fire_go]
      exact no_double_fire_go_reaps _ _
    | cons p rest =>
      cases rest with
      | cons p2 rest2 => simp [payload_count] at h
      | nil =>
        simp only [run_iteration, queue_pop, hp, List.flatMap_cons,
          List.flatMap_nil, List.append_nil, no_double_fire]
        simp only [List.cons_append, List.append_assoc, no_double_fire_go]
        exact no_double_fire_go_fires p (List.range (numJobs e)) _ _
          (List.nodup_range _) (fun j _ => rfl)
          (fun c => no_double_fire_go_reaps _ c)

/-- Witness for C8 at a concrete input: one payload entry and two jobs. -/
theorem C8_witness :
    payload_count ((fun _ : Nat => some ([5] : List Nat)) 0) ≤ 1 ∧
    no_double_fire ((run_iteration false ([0] : List Nat)
      (fun _ => some [5]) (fun _ => 2)).1) = true :=
  ⟨by decide,
    C8_no_double_fire_of_single_payload false 0 [] (fun _ => some [5])
      (fun _ => 2) (by decide)⟩

/-- C9: parsing `EventJobConfig` from JSON that omits `timeout` does not
succeed with the default 120 — `parse_json` feeds the declared int default
`120` back through `ConfigField.set`, whose type check against the declared
acceptable types `[str]` raises, so parsing fails. -/
theorem C9_job_config_timeout_parse_raises :
    parse_json event_job_config_fields
      [("args", PyVal.vlist [PyVal.vstr "echo"]), ("name", PyVal.vstr "n"),
       ("run_dir", PyVal.vstr "/tmp")] =
      Except.error
        ("ConfigField Error: Field \"timeout\" must be one of the following types") ∧
    (event_job_config_fields.filter (fun f => f.name == "timeout")).map
        (fun f => (f.types, f.default, f.required)) =
      [([PyType.strT], PyVal.vint 120, false)] :=
  ⟨rfl, rfl⟩

/-- C10: the dispatch queue is FIFO — pushing p1, …, pn onto an initially
empty queue and then popping n times with no interleaving pushes returns
p1, …, pn in exactly that order. -/
theorem C10_queue_fifo (ps : List Nat) :
    (queue_pop_n ps.length (queue_push_all ([] : List Nat) ps)).1 =
      ps.map PopResult.item := by
  rw [queue_push_all_eq_append]
  simp [queue_pop_n_all]

end Plado
